import Mathlib

/-!
Verification of the slot/request lifecycle core of the medBotPrime repository.

The development shallowly embeds the data model (Postgres tables `slots`,
`requests`, `procedures`, `blacklist`, `history` from `utils/db.js`) as Lean
structures, and the repository's handlers and background-worker steps as pure
functions on that state.  Time instants are integers (milliseconds since the
epoch, the value of `Date.prototype.getTime`).  SQL errors that a handler
catches and swallows are modelled as `Except.error` results that leave the
state unchanged.  The repository ships several variants of `bot.js` and
`utils/db.js`; functions carry a suffix naming the file they are translated
from (`Bot` for `src/bot.js`, `Part0` for `src/unnamed/part_000`, `P1` for
`src/unnamed/part_001`).
-/

namespace MedBot

/-- Request lifecycle statuses, exactly the string values stored in
`requests.status`. -/
inductive Status where
  | pending
  | conditional
  | reserved_later
  | approved
  | move_pending
  | rejected
  | completed
  | no_show
deriving DecidableEq, Repr

/-- Terminal statuses, the set excluded by `checkDuplicateRequest`
(`utils/db.js` line 125: status NOT IN rejected, completed, no_show). -/
def terminalStatus : Status → Bool
  | .rejected => true
  | .completed => true
  | .no_show => true
  | _ => false

/-- A row of the `slots` table (`utils/db.js` initDb): id, human label `time`,
start instant, end instant.  `endT` stands for the SQL column `"end"`. -/
structure Slot where
  id : Nat
  time : String
  start : Int
  endT : Int
deriving DecidableEq, Repr

/-- A row of the `requests` table (`utils/db.js` initDb). -/
structure Request where
  id : Nat
  user_id : Nat
  username : Option String
  name : String
  slot_id : Option Nat
  time : String
  procedure : Option String
  status : Status
  created_at : Int
  pending_move_slot_id : Option Nat
  pending_move_time : Option String
  original_slot_id : Option Nat
  original_slot_time : Option String
  original_slot_start : Option Int
  original_slot_end : Option Int
  prev_status : Option Status
  notification_20_sent : Bool
  notification_1h_sent : Bool
deriving DecidableEq, Repr

/-- A row of the `procedures` table. -/
structure Procedure where
  key : String
  name : String
deriving DecidableEq, Repr

/-- A row of the append-only `history` table. -/
structure HistoryEntry where
  user_id : Nat
  date : String
  procedure : String
  status : String
deriving DecidableEq, Repr

/-- The whole database state. -/
structure Db where
  slots : List Slot
  requests : List Request
  procedures : List Procedure
  blacklist : List String
  history : List HistoryEntry
deriving DecidableEq, Repr

/-- Default procedures seeded by `initDb` (`utils/db.js` lines 68-77). -/
def defaultProcedures : List Procedure :=
  [⟨"botulinotherapy", "Ботулинотерапия"⟩, ⟨"mesoniti", "Мезонити"⟩]

/-- The state right after `initDb` on an empty database. -/
def initialDb : Db :=
  { slots := [], requests := [], procedures := defaultProcedures,
    blacklist := [], history := [] }

/-! Database helper functions from `utils/db.js`. -/

/-- `getSlotById` (`utils/db.js` lines 88-91). -/
def getSlotById (slots : List Slot) (id : Nat) : Option Slot :=
  slots.find? (fun s => decide (s.id = id))

/-- `deleteSlotById` (`utils/db.js` lines 95-97): DELETE is a no-op when the
row is already absent. -/
def deleteSlotById (slots : List Slot) (id : Nat) : List Slot :=
  slots.filter (fun s => decide (s.id ≠ id))

/-- Insert-if-absent of a slot row, the effect of
`INSERT INTO slots ... ON CONFLICT (id) DO NOTHING` used by the original-slot
restore paths (`utils/db.js` lines 253-258, `src/unnamed/part_001` lines
93-96 and 320-330). -/
def addSlotIfAbsent (slots : List Slot) (s : Slot) : List Slot :=
  if slots.any (fun t => decide (t.id = s.id)) then slots else slots ++ [s]

/-- `getEarliestSlot` (`utils/db.js` lines 84-87): ORDER BY start LIMIT 1. -/
def getEarliestSlot (slots : List Slot) : Option Slot :=
  slots.foldl
    (fun acc s =>
      match acc with
      | none => some s
      | some m => if s.start < m.start then some s else acc)
    none

/-- `getRequestById` (`utils/db.js` lines 131-134). -/
def getRequestById (requests : List Request) (id : Nat) : Option Request :=
  requests.find? (fun r => decide (r.id = id))

/-- `checkDuplicateRequest` (`utils/db.js` lines 123-129): a non-terminal
request of the same user for the same slot already exists. -/
def checkDuplicateRequest (requests : List Request) (uid slotId : Nat) : Bool :=
  requests.any (fun r =>
    decide (r.user_id = uid) && decide (r.slot_id = some slotId) &&
    !(decide (r.status = Status.rejected) || decide (r.status = Status.completed) ||
      decide (r.status = Status.no_show)))

/-- `getProcedureByKey` (`utils/db.js` lines 109-112). -/
def getProcedureByKey (procs : List Procedure) (key : String) : Option Procedure :=
  procs.find? (fun p => decide (p.key = key))

/-- `deleteRequestById` (`utils/db.js` lines 150-152). -/
def deleteRequestById (requests : List Request) (id : Nat) : List Request :=
  requests.filter (fun r => decide (r.id ≠ id))

/-- `updateRequest` keyed by id (`utils/db.js` lines 136-143); each call site
fixes the updated field set `f`. -/
def updateById (requests : List Request) (id : Nat) (f : Request → Request) :
    List Request :=
  requests.map (fun r => if r.id = id then f r else r)

/-- UPDATE requests SET status = ... WHERE id = ... -/
def updateStatus (requests : List Request) (id : Nat) (st : Status) : List Request :=
  updateById requests id (fun r => { r with status := st })

/-! Utility functions from `utils/utils.js` (`src/unnamed/part_003`). -/

/-- `intervalsOverlap` (`part_003` lines 52-54). -/
def intervalsOverlap (aStart aEnd bStart bEnd : Int) : Bool :=
  decide (aStart < bEnd) && decide (bStart < aEnd)

/-- `isInPast` (`part_003` lines 48-50): a one-second grace is granted
(`date.getTime() < Date.now() - 1000`). -/
def isInPast (t now : Int) : Bool :=
  decide (t < now - 1000)

/-! Blacklist operations (`utils/db.js` lines 206-215). -/

/-- Normalisation shared by blacklist insert and lookup: strip one leading
at-sign (the regex is anchored at the start and unrepeated) and lowercase
every character, working on the string's character list. -/
def normalizeHandle (u : String) : String :=
  String.mk ((match u.data with
    | '@' :: rest => rest
    | l => l).map Char.toLower)

/-- `isUserBlacklisted` (`utils/db.js` lines 206-211): a missing or empty
handle is never blacklisted (`if (!username) return false`); otherwise the
SQL equality probe on the normalised handle decides membership. -/
def isUserBlacklisted (blacklist : List String) (username : Option String) : Bool :=
  match username with
  | none => false
  | some u =>
    if u = "" then false
    else blacklist.any (fun x => decide (x = normalizeHandle u))

/-- `addToBlacklist` (`utils/db.js` lines 212-215): insert-if-absent of the
normalised handle (ON CONFLICT DO NOTHING on the primary key). -/
def addToBlacklist (blacklist : List String) (username : String) : List String :=
  let uname := normalizeHandle username
  if blacklist.any (fun x => decide (x = uname)) then blacklist
  else blacklist ++ [uname]

/-! Slot creation. -/

/-- Errors of the add-slot flow (`src/bot.js` lines 226-243). -/
inductive AddslotErr where
  | badInterval
  | pastStart
  | overlapConflict
deriving DecidableEq, Repr

/-- Core of the addslot admin mode on the slot pool (`src/bot.js` lines
229-240, identical in `part_000` lines 328-339): refuse past starts
(`utils.isInPast`), refuse any overlap with an existing slot
(`utils.intervalsOverlap`), else insert a fresh row.  The caller has already
parsed the text, so `start < end` holds for real inputs. -/
def addslotCore (slots : List Slot) (now : Int) (text : String) (s e : Int)
    (freshId : Nat) : Except AddslotErr (List Slot) :=
  if isInPast s now then .error .pastStart
  else if slots.any (fun t => intervalsOverlap s e t.start t.endT) then
    .error .overlapConflict
  else .ok (slots ++ [⟨freshId, text, s, e⟩])

/-- The addslot admin mode (`src/bot.js` lines 226-243), including the parser
guard of `parseSlotDateTimeInterval` (`part_003` line 35: `end <= start` is
rejected before the handler sees the interval). -/
def addslotHandler (db : Db) (now : Int) (text : String) (s e : Int)
    (freshId : Nat) : Except AddslotErr Db :=
  if e ≤ s then .error .badInterval
  else
    match addslotCore db.slots now text s e freshId with
    | .error err => .error err
    | .ok l => .ok { db with slots := l }

/-- One interval insertion of `applyPatternToDate` (`utils/db.js` lines
186-201): skip when `end <= start`, skip when the SQL overlap probe
`NOT (start >= $1 OR "end" <= $2)` finds a conflicting live slot, else insert
a fresh row.  There is no past-start check on this path. -/
def patternInsert (slots : List Slot) (s e : Int) (freshId : Nat)
    (timeStr : String) : List Slot :=
  if e ≤ s then slots
  else if slots.any (fun t => !(decide (t.start ≥ e) || decide (t.endT ≤ s))) then slots
  else slots ++ [⟨freshId, timeStr, s, e⟩]

/-! Request submission. -/

/-- Errors of the submit flow (`proc_` handlers). -/
inductive SubmitErr where
  | blacklisted
  | slotGone
  | procUnavailable
  | duplicateRequest
deriving DecidableEq, Repr

/-- The `proc_` submit handler of `src/bot.js` (lines 142-194): blacklist
gate, slot lookup, procedure lookup, duplicate check; then the slot is
deleted immediately and the request is created as `pending` when the slot was
the current earliest, `reserved_later` otherwise.  An original-slot snapshot
is always stored on the request. -/
def submitBot (db : Db) (uid : Nat) (username : Option String)
    (firstName : String) (slotId : Nat) (procKey : String) (freshReqId : Nat)
    (createdAt : Int) : Except SubmitErr Db :=
  if isUserBlacklisted db.blacklist username then .error .blacklisted
  else
    match getSlotById db.slots slotId with
    | none => .error .slotGone
    | some slot =>
      match getProcedureByKey db.procedures procKey with
      | none => .error .procUnavailable
      | some proc =>
        if checkDuplicateRequest db.requests uid slotId then .error .duplicateRequest
        else
          let isEarliest : Bool :=
            match getEarliestSlot db.slots with
            | some e => decide (e.id = slot.id)
            | none => false
          let slots1 := deleteSlotById db.slots slot.id
          let st : Status := if isEarliest then .pending else .reserved_later
          let req : Request :=
            { id := freshReqId, user_id := uid, username := username,
              name := firstName, slot_id := some slot.id, time := slot.time,
              procedure := some proc.name, status := st, created_at := createdAt,
              pending_move_slot_id := none, pending_move_time := none,
              original_slot_id := some slot.id, original_slot_time := some slot.time,
              original_slot_start := some slot.start,
              original_slot_end := some slot.endT, prev_status := none,
              notification_20_sent := false, notification_1h_sent := false }
          .ok { db with slots := slots1, requests := db.requests ++ [req] }

/-- The `proc_` submit handler of `src/unnamed/part_000` (lines 223-264):
same gates, but the slot is NOT deleted ("pending shouldn't claim slot") and
the request is always created as `pending`, with the snapshot stored. -/
def submitPart0 (db : Db) (uid : Nat) (username : Option String)
    (firstName : String) (slotId : Nat) (procKey : String) (freshReqId : Nat)
    (createdAt : Int) : Except SubmitErr Db :=
  if isUserBlacklisted db.blacklist username then .error .blacklisted
  else
    match getSlotById db.slots slotId with
    | none => .error .slotGone
    | some slot =>
      match getProcedureByKey db.procedures procKey with
      | none => .error .procUnavailable
      | some proc =>
        if checkDuplicateRequest db.requests uid slotId then .error .duplicateRequest
        else
          let req : Request :=
            { id := freshReqId, user_id := uid, username := username,
              name := firstName, slot_id := some slot.id, time := slot.time,
              procedure := some proc.name, status := .pending,
              created_at := createdAt,
              pending_move_slot_id := none, pending_move_time := none,
              original_slot_id := some slot.id, original_slot_time := some slot.time,
              original_slot_start := some slot.start,
              original_slot_end := some slot.endT, prev_status := none,
              notification_20_sent := false, notification_1h_sent := false }
          .ok { db with requests := db.requests ++ [req] }

/-! Admin card handlers. -/

/-- Errors of the approve handler. -/
inductive ApproveErr where
  | notFound
  | alreadyApproved
deriving DecidableEq, Repr

/-- The `approve_` handler (`src/unnamed/part_000` lines 521-540): error when
the request is missing or already approved; otherwise delete the bound slot
(tolerant of its absence, and of a null `slot_id`), set the status to
`approved` and reset both reminder flags. -/
def approveHandler (db : Db) (reqId : Nat) : Except ApproveErr Db :=
  match getRequestById db.requests reqId with
  | none => .error .notFound
  | some req =>
    if req.status = Status.approved then .error .alreadyApproved
    else
      let slots1 :=
        match req.slot_id with
        | some sid => deleteSlotById db.slots sid
        | none => db.slots
      let requests1 := updateById db.requests reqId
        (fun r => { r with
            status := Status.approved,
            notification_20_sent := false, notification_1h_sent := false })
      .ok { db with slots := slots1, requests := requests1 }

/-- Errors of the reject handler. -/
inductive RejectErr where
  | notFound
  | referenceErrorClientUndefined
deriving DecidableEq, Repr

/-- The `reject_` handler (`src/unnamed/part_000` lines 542-563).  When the
request carries an original-slot snapshot the code runs `client.query(...)`,
but no variable `client` is in scope in that handler: JavaScript throws a
ReferenceError before any row is written, the outer catch swallows it, and
the database is left unchanged.  Only snapshot-free requests reach the
status update. -/
def rejectHandlerPart0 (db : Db) (reqId : Nat) : Except RejectErr Db :=
  match getRequestById db.requests reqId with
  | none => .error .notFound
  | some req =>
    match req.original_slot_id with
    | some _ => .error .referenceErrorClientUndefined
    | none => .ok { db with requests := updateStatus db.requests reqId .rejected }

/-- Error of the complete / no-show / move handlers. -/
inductive HandlerErr where
  | notFound
  | slotUnavailable
  | noMovePending
deriving DecidableEq, Repr

/-- The `complete_` handler (`src/bot.js` lines 591-607): no guard on the
current status; sets `completed` and appends a history row. -/
def completeHandler (db : Db) (reqId : Nat) : Except HandlerErr Db :=
  match getRequestById db.requests reqId with
  | none => .error .notFound
  | some req =>
    .ok { db with
          requests := updateStatus db.requests reqId .completed,
          history := db.history ++
            [⟨req.user_id, req.time, req.procedure.getD "Процедура", "Выполнено"⟩] }

/-- The `no_show_` handler (`src/bot.js` lines 609-624): no guard on the
current status; sets `no_show` and appends a history row. -/
def noShowHandler (db : Db) (reqId : Nat) : Except HandlerErr Db :=
  match getRequestById db.requests reqId with
  | none => .error .notFound
  | some req =>
    .ok { db with
          requests := updateStatus db.requests reqId .no_show,
          history := db.history ++
            [⟨req.user_id, req.time, req.procedure.getD "Процедура", "Неявка"⟩] }

/-! Move flow. -/

/-- The `moveTo_` handler (`src/bot.js` lines 638-667): the candidate slot is
deleted immediately (pessimistic claim) and the request records the candidate
id/label, its previous status, and moves to `move_pending`. -/
def moveToBot (db : Db) (reqId slotId : Nat) : Except HandlerErr Db :=
  match getSlotById db.slots slotId with
  | none => .error .slotUnavailable
  | some slot =>
    match getRequestById db.requests reqId with
    | none => .error .notFound
    | some req =>
      let slots1 := deleteSlotById db.slots slot.id
      let requests1 := updateById db.requests reqId
        (fun r => { r with
            pending_move_slot_id := some slot.id,
            pending_move_time := some slot.time,
            prev_status := some req.status,
            status := Status.move_pending })
      .ok { db with slots := slots1, requests := requests1 }

/-- The `move_choose_` handler (`src/unnamed/part_000` lines 625-643): same
bookkeeping but the candidate slot is NOT deleted. -/
def moveChoosePart0 (db : Db) (reqId slotId : Nat) : Except HandlerErr Db :=
  match getSlotById db.slots slotId with
  | none => .error .slotUnavailable
  | some slot =>
    match getRequestById db.requests reqId with
    | none => .error .notFound
    | some req =>
      let requests1 := updateById db.requests reqId
        (fun r => { r with
            pending_move_slot_id := some slot.id,
            pending_move_time := some slot.time,
            status := Status.move_pending,
            prev_status := some req.status })
      .ok { db with requests := requests1 }

/-- The `clientMoveNo_` handler (`src/bot.js` lines 683-693): clear the
pending-move fields and restore `prev_status || status`.  The candidate slot
deleted by `moveTo_` is NOT re-inserted into the pool. -/
def clientMoveNoBot (db : Db) (reqId : Nat) : Except HandlerErr Db :=
  match getRequestById db.requests reqId with
  | none => .error .noMovePending
  | some req =>
    match req.pending_move_slot_id with
    | none => .error .noMovePending
    | some _ =>
      let requests1 := updateById db.requests reqId
        (fun r => { r with
            pending_move_slot_id := none,
            pending_move_time := none,
            status := req.prev_status.getD req.status,
            prev_status := none })
      .ok { db with requests := requests1 }

/-- Result of `applyClientMove`. -/
inductive MoveResult where
  | noMoveRequest
  | slotUnavailable
  | moved (newTime : String)
deriving DecidableEq, Repr

/-- `applyClientMove` (`src/unnamed/part_001` lines 296-353).  If the
candidate slot is gone the move is cancelled (pending fields cleared, status
reverted to `COALESCE(prev_status, status)`).  Otherwise, when the previous
status was `approved` and a complete original-slot snapshot exists, the
original slot is re-inserted (insert-if-absent; an incomplete snapshot would
make the INSERT fail on a NOT NULL column and the failure is caught
best-effort, so nothing is inserted), the candidate slot is deleted, and the
request is re-bound to it with status `COALESCE(prev_status, 'approved')`. -/
def applyClientMoveP1 (db : Db) (reqId : Nat) : Db × MoveResult :=
  match getRequestById db.requests reqId with
  | none => (db, .noMoveRequest)
  | some req =>
    match req.pending_move_slot_id with
    | none => (db, .noMoveRequest)
    | some pmsId =>
      match getSlotById db.slots pmsId with
      | none =>
        let requests1 := updateById db.requests reqId
          (fun r => { r with
              pending_move_slot_id := none,
              pending_move_time := none,
              status := r.prev_status.getD r.status,
              prev_status := none })
        ({ db with requests := requests1 }, .slotUnavailable)
      | some newSlot =>
        let slots1 :=
          if req.prev_status = some Status.approved then
            match req.original_slot_id, req.original_slot_time,
                  req.original_slot_start, req.original_slot_end with
            | some oid, some otime, some ost, some oen =>
                addSlotIfAbsent db.slots ⟨oid, otime, ost, oen⟩
            | _, _, _, _ => db.slots
          else db.slots
        let slots2 := deleteSlotById slots1 newSlot.id
        let requests1 := updateById db.requests reqId
          (fun r => { r with
            slot_id := some newSlot.id, time := newSlot.time,
            status := r.prev_status.getD Status.approved,
            prev_status := none,
            pending_move_slot_id := none, pending_move_time := none })
        ({ db with slots := slots2, requests := requests1 }, .moved newSlot.time)

/-! Background workers. -/

/-- Result of `promoteConditionalRequest`. -/
inductive PromoteResult where
  | notFound
  | noSlot
  | slotTaken
  | tooEarly
  | earlySlotsFree
  | promoted (newTime : String)
deriving DecidableEq, Repr

/-- True when some slot strictly earlier than `slotStart` sits in the pool
without an approved request bound to it — the LEFT JOIN probe of
`promoteConditionalRequest` (`src/unnamed/part_001` lines 402-419). -/
def earlierUncovered (db : Db) (slotStart : Int) : Bool :=
  db.slots.any (fun s =>
    decide (s.start < slotStart) &&
    !(db.requests.any (fun r =>
        decide (r.slot_id = some s.id) && decide (r.status = Status.approved))))

/-- `promoteConditionalRequest` (`src/unnamed/part_001` lines 370-431):
reject when the bound slot id is null or the slot row is gone; skip (no
change) when `now < slotStart - thresholdHours`; skip (no change) when some
earlier slot in the pool has no approved request covering it; otherwise set
the request to `pending`. -/
def promoteConditionalRequest (db : Db) (reqId : Nat) (thresholdHours now : Int) :
    Db × PromoteResult :=
  match getRequestById db.requests reqId with
  | none => (db, .notFound)
  | some req =>
    match req.slot_id with
    | none => ({ db with requests := updateStatus db.requests reqId .rejected }, .noSlot)
    | some sid =>
      match getSlotById db.slots sid with
      | none =>
        ({ db with requests := updateStatus db.requests reqId .rejected }, .slotTaken)
      | some slot =>
        if now < slot.start - thresholdHours * 3600 * 1000 then (db, .tooEarly)
        else if earlierUncovered db slot.start then (db, .earlySlotsFree)
        else
          ({ db with requests := updateStatus db.requests reqId .pending },
           .promoted slot.time)

/-- `getConditionalRequests` (`src/unnamed/part_001` lines 365-368). -/
def getConditionalRequests (requests : List Request) : List Request :=
  requests.filter (fun r => decide (r.status = Status.conditional))

/-- The conditional loop of one `runOnce` tick (`utils/notifications.js`
lines 57-77): for each request fetched as `conditional`, run the promotion
step; on `slot_taken` or `no_slot` the loop additionally writes `rejected`
(idempotent — the step already did). -/
def conditionalTick (db : Db) (thresholdHours now : Int) : Db :=
  (getConditionalRequests db.requests).foldl
    (fun acc c =>
      let pr := promoteConditionalRequest acc c.id thresholdHours now
      match pr.2 with
      | .slotTaken => { pr.1 with requests := updateStatus pr.1.requests c.id .rejected }
      | .noSlot => { pr.1 with requests := updateStatus pr.1.requests c.id .rejected }
      | _ => pr.1)
    db

/-- The reserved loop of one `runOnce` tick (worker embedded in the
`utils/db.js` file, lines 411-428): a `reserved_later` request is promoted to
`pending` when no strictly earlier slot remains in the pool or `now` has
passed `slotStart - 3h`. -/
def reservedTick (db : Db) (now : Int) : Db :=
  (db.requests.filter (fun r => decide (r.status = Status.reserved_later))).foldl
    (fun acc r =>
      match r.original_slot_start with
      | none => acc
      | some oss =>
        let hasEarlier := acc.slots.any (fun s => decide (s.start < oss))
        if !hasEarlier || decide (oss - 3 * 3600 * 1000 ≤ now) then
          { acc with requests := updateStatus acc.requests r.id .pending }
        else acc)
    db

/-- Slot start used by the reminder loop:
`COALESCE(s.start, r.original_slot_start)` from
`getApprovedRequestsNeedingNotifications` (`utils/db.js` lines 301-310). -/
def slotStartForNotif (db : Db) (r : Request) : Option Int :=
  match r.slot_id with
  | none => r.original_slot_start
  | some sid =>
    match getSlotById db.slots sid with
    | some s => some s.start
    | none => r.original_slot_start

/-- UPDATE of the 20:00 reminder flag. -/
def setFlag20 (requests : List Request) (id : Nat) : List Request :=
  updateById requests id (fun r => { r with notification_20_sent := true })

/-- UPDATE of the one-hour reminder flag. -/
def setFlag1h (requests : List Request) (id : Nat) : List Request :=
  updateById requests id (fun r => { r with notification_1h_sent := true })

/-- The reminder loop of one `runOnce` tick (`utils/notifications.js` lines
23-55): rows are the approved requests with an unsent flag, fetched at tick
start; `trigger20` abstracts the local-calendar computation of 20:00 on the
day before the slot start (`setDate`/`setHours`), which no claim depends on;
`ok20`/`ok1h` tell whether the corresponding `sendMessage` succeeds, and a
flag is persisted only on success. -/
def reminderTick (db : Db) (now : Int) (trigger20 : Int → Int)
    (ok20 ok1h : Nat → Bool) : Db :=
  (db.requests.filter (fun r =>
      decide (r.status = Status.approved) &&
      (!r.notification_20_sent || !r.notification_1h_sent))).foldl
    (fun acc r =>
      match slotStartForNotif db r with
      | none => acc
      | some slotStart =>
        let acc1 :=
          if !r.notification_20_sent && decide (trigger20 slotStart ≤ now) && ok20 r.id
          then { acc with requests := setFlag20 acc.requests r.id } else acc
        let acc2 :=
          if !r.notification_1h_sent && decide (slotStart - 3600000 ≤ now) && ok1h r.id
          then { acc1 with requests := setFlag1h acc1.requests r.id } else acc1
        acc2)
    db

/-- One-hour reminder step for a single approved request bound to a slot
starting at `T`, the projection of `utils/notifications.js` lines 46-54:
given the stored flag and whether the send succeeds, return the new flag and
whether a reminder was delivered at this tick.  The guard is
`!r.notification_1h_sent && now >= slotStart - 60*60*1000`; the flag is
written only after a successful send. -/
def tick1h (T now : Int) (ok flag : Bool) : Bool × Bool :=
  if flag = false ∧ T - 3600000 ≤ now then (ok, ok) else (flag, false)

/-- Number of one-hour reminders delivered over a run of ticks, each tick
carrying its `now` and whether the send would succeed. -/
def run1h (T : Int) (flag : Bool) : List (Int × Bool) → Nat
  | [] => 0
  | (now, ok) :: rest =>
    let r := tick1h T now ok flag
    (if r.2 then 1 else 0) + run1h T r.1 rest

/-! Reachability.  `Reachable` closes the initial state under (a subset of)
the repository's handlers; every constructor applies one handler function
defined above, so every `Reachable` state is a state the running system can
be in.  It is used to witness reachability of concrete states. -/

inductive Reachable : Db → Prop where
  | init : Reachable initialDb
  | addslot : ∀ {db db'} (now : Int) (text : String) (s e : Int) (freshId : Nat),
      Reachable db → addslotHandler db now text s e freshId = Except.ok db' →
      Reachable db'
  | submit_bot : ∀ {db db'} (uid : Nat) (username : Option String)
      (firstName : String) (slotId : Nat) (procKey : String) (freshReqId : Nat)
      (createdAt : Int),
      Reachable db →
      submitBot db uid username firstName slotId procKey freshReqId createdAt =
        Except.ok db' →
      Reachable db'
  | submit_p0 : ∀ {db db'} (uid : Nat) (username : Option String)
      (firstName : String) (slotId : Nat) (procKey : String) (freshReqId : Nat)
      (createdAt : Int),
      Reachable db →
      submitPart0 db uid username firstName slotId procKey freshReqId createdAt =
        Except.ok db' →
      Reachable db'
  | approve : ∀ {db db'} (reqId : Nat),
      Reachable db → approveHandler db reqId = Except.ok db' → Reachable db'
  | complete : ∀ {db db'} (reqId : Nat),
      Reachable db → completeHandler db reqId = Except.ok db' → Reachable db'
  | no_show : ∀ {db db'} (reqId : Nat),
      Reachable db → noShowHandler db reqId = Except.ok db' → Reachable db'
  | move_choose_p0 : ∀ {db db'} (reqId slotId : Nat),
      Reachable db → moveChoosePart0 db reqId slotId = Except.ok db' → Reachable db'
  | client_move_yes_p1 : ∀ {db db'} (reqId : Nat),
      Reachable db → (applyClientMoveP1 db reqId).1 = db' → Reachable db'

/-- Slot-pool reachability without snapshot restorations: the pool effects of
the repository's operations other than the insert-if-absent restore paths are
exactly checked creations (`addslotCore` for the addslot mode,
`patternInsert` for pattern expansion) and deletions (explicit removal,
claims at submit/approve time, pessimistic move claims). -/
inductive PoolReach : List Slot → Prop where
  | init : PoolReach []
  | create : ∀ {l l'} (now : Int) (text : String) (s e : Int) (freshId : Nat),
      PoolReach l → addslotCore l now text s e freshId = Except.ok l' →
      PoolReach l'
  | pattern : ∀ {l} (s e : Int) (freshId : Nat) (timeStr : String),
      PoolReach l → PoolReach (patternInsert l s e freshId timeStr)
  | delete : ∀ {l} (id : Nat),
      PoolReach l → PoolReach (deleteSlotById l id)

/-- Pairwise interval-disjointness of a slot pool, the forbidden pattern
being `s1.start < s2.end && s2.start < s1.end`. -/
def slotsDisjoint (l : List Slot) : Prop :=
  l.Pairwise (fun a b => ¬(a.start < b.endT ∧ b.start < a.endT))

/-! Concrete fixture states used by counterexamples and witnesses. -/

/-- A request record with default field values; fixtures override the fields
they care about. -/
def baseReq : Request :=
  { id := 0, user_id := 0, username := none, name := "", slot_id := none,
    time := "", procedure := none, status := .pending, created_at := 0,
    pending_move_slot_id := none, pending_move_time := none,
    original_slot_id := none, original_slot_time := none,
    original_slot_start := none, original_slot_end := none, prev_status := none,
    notification_20_sent := false, notification_1h_sent := false }

/-- Slot A of the C1 trace. -/
def c1slotA : Slot := ⟨1, "A", 1000000, 2000000⟩

/-- Slot B of the C1 trace: same interval as A, fresh id. -/
def c1slotB : Slot := ⟨2, "B", 1000000, 2000000⟩

/-- Slot C of the C1 trace: a later, disjoint interval. -/
def c1slotC : Slot := ⟨3, "C", 5000000, 6000000⟩

/-- The request created by submitting slot A in the C1 trace. -/
def c1req0 : Request :=
  { baseReq with
    id := 100, user_id := 50, username := some "alice",
    name := "Alice", slot_id := some 1, time := "A",
    procedure := some "Ботулинотерапия", status := .pending,
    original_slot_id := some 1, original_slot_time := some "A",
    original_slot_start := some 1000000, original_slot_end := some 2000000 }

/-- C1 trace, after `addslot A`. -/
def c1db1 : Db := { initialDb with
    slots := [c1slotA] }

/-- C1 trace, after the bot.js submit on A (A deleted, pending request). -/
def c1db2 : Db := { initialDb with
    slots := [], requests := [c1req0] }

/-- C1 trace, after `addslot B` (no conflict: A is gone). -/
def c1db3 : Db := { initialDb with
    slots := [c1slotB], requests := [c1req0] }

/-- C1 trace, after approving the request (its slot already gone). -/
def c1db4 : Db :=
  { initialDb with
    slots := [c1slotB],
    requests := [{ c1req0 with
    status := .approved }] }

/-- C1 trace, after `addslot C`. -/
def c1db5 : Db :=
  { initialDb with
    slots := [c1slotB, c1slotC],
    requests := [{ c1req0 with
    status := .approved }] }

/-- C1 trace, after proposing a move to C (part_000 flow: C not deleted). -/
def c1db6 : Db :=
  { initialDb with
    slots := [c1slotB, c1slotC],
    requests := [{ c1req0 with
    status := .move_pending,
      pending_move_slot_id := some 3, pending_move_time := some "C",
      prev_status := some .approved }] }

/-- C1 trace, after the client confirms the move: `applyClientMove` restores
original slot A (insert-if-absent, no overlap check) next to B. -/
def c1db7 : Db :=
  { initialDb with
    slots := [c1slotB, c1slotA],
    requests := [{ c1req0 with
    status := .approved, slot_id := some 3,
      time := "C" }] }

/-- Slot A of the C2 trace. -/
def c2slotA : Slot := ⟨1, "A", 1000000, 2000000⟩

/-- Slot B of the C2 trace (later, disjoint). -/
def c2slotB : Slot := ⟨2, "B", 5000000, 6000000⟩

/-- The user's request on slot A in the C2 trace. -/
def c2reqA : Request :=
  { baseReq with
    id := 100, user_id := 50, username := some "alice",
    name := "Alice", slot_id := some 1, time := "A",
    procedure := some "Ботулинотерапия", status := .pending,
    original_slot_id := some 1, original_slot_time := some "A",
    original_slot_start := some 1000000, original_slot_end := some 2000000 }

/-- The same user's request on slot B in the C2 trace. -/
def c2reqB : Request :=
  { baseReq with
    id := 101, user_id := 50, username := some "alice",
    name := "Alice", slot_id := some 2, time := "B",
    procedure := some "Ботулинотерапия", status := .pending,
    original_slot_id := some 2, original_slot_time := some "B",
    original_slot_start := some 5000000, original_slot_end := some 6000000 }

/-- C2 trace, after `addslot A`. -/
def c2db1 : Db := { initialDb with
    slots := [c2slotA] }

/-- C2 trace, after `addslot B`. -/
def c2db2 : Db := { initialDb with
    slots := [c2slotA, c2slotB] }

/-- C2 trace, after the part_000 submit on A (slot kept). -/
def c2db3 : Db :=
  { initialDb with
    slots := [c2slotA, c2slotB], requests := [c2reqA] }

/-- C2 trace, after the part_000 submit on B (different slot, no conflict). -/
def c2db4 : Db :=
  { initialDb with
    slots := [c2slotA, c2slotB], requests := [c2reqA, c2reqB] }

/-- C2 trace, after the admin proposes moving the A-request to slot B. -/
def c2db5 : Db :=
  { initialDb with
    slots := [c2slotA, c2slotB],
    requests := [{ c2reqA with
    status := .move_pending,
      pending_move_slot_id := some 2, pending_move_time := some "B",
      prev_status := some .pending }, c2reqB] }

/-- C2 trace, after the client confirms: the A-request is re-bound to slot B
with no duplicate check, leaving two non-terminal requests of user 50 on
slot 2. -/
def c2db6 : Db :=
  { initialDb with
    slots := [c2slotA],
    requests := [{ c2reqA with
    slot_id := some 2, time := "B" }, c2reqB] }

/-- Slot A of the C9 trace. -/
def c9slotA : Slot := ⟨1, "A", 1000000, 2000000⟩

/-- The request of the C9 trace. -/
def c9req0 : Request :=
  { baseReq with
    id := 100, user_id := 50, username := some "alice",
    name := "Alice", slot_id := some 1, time := "A",
    procedure := some "Ботулинотерапия", status := .pending,
    original_slot_id := some 1, original_slot_time := some "A",
    original_slot_start := some 1000000, original_slot_end := some 2000000 }

/-- C9 trace, after `addslot A`. -/
def c9db1 : Db := { initialDb with
    slots := [c9slotA] }

/-- C9 trace, after the part_000 submit on A. -/
def c9db2 : Db := { initialDb with
    slots := [c9slotA], requests := [c9req0] }

/-- C9 trace, after `complete_` on the pending request: terminal. -/
def c9db3 : Db :=
  { initialDb with
    slots := [c9slotA],
    requests := [{ c9req0 with
    status := .completed }],
    history := [⟨50, "A", "Ботулинотерапия", "Выполнено"⟩] }

/-- C9 trace, after `no_show_` on the already-completed request: the terminal
status is overwritten. -/
def c9db4 : Db :=
  { initialDb with
    slots := [c9slotA],
    requests := [{ c9req0 with
    status := .no_show }],
    history := [⟨50, "A", "Ботулинотерапия", "Выполнено"⟩,
      ⟨50, "A", "Ботулинотерапия", "Неявка"⟩] }

/-- Request fixture of the C2 witness. -/
def c2wReq : Request := { baseReq with
    id := 1, user_id := 5, slot_id := some 1 }

/-- State fixture of the C2 witness. -/
def c2wDb : Db := { initialDb with
    slots := [⟨1, "A", 10000, 20000⟩], requests := [c2wReq] }

/-- Request fixture of the C9 witness: a rejected (terminal) request. -/
def c9wReq : Request := { baseReq with
    id := 1, status := Status.rejected }

/-- State fixture of the C9 witness. -/
def c9wDb : Db := { initialDb with requests := [c9wReq] }

/-- Approved request fixture for the C3 decline-move round trip. -/
def c3req : Request := { baseReq with
    id := 1, user_id := 50, slot_id := some 9, time := "X",
    status := .approved }

/-- C3 state before the move proposal: candidate slot 5 is in the pool. -/
def c3db0 : Db := { initialDb with
    slots := [⟨5, "C", 500000, 600000⟩], requests := [c3req] }

/-- C3 state after `moveTo_`: candidate slot 5 deleted, request move_pending. -/
def c3db1 : Db := { initialDb with
    slots := [],
    requests := [{ c3req with
      pending_move_slot_id := some 5, pending_move_time := some "C",
      prev_status := some .approved, status := .move_pending }] }

/-- C3 state after `clientMoveNo_`: the request is back to its pre-move state
but slot 5 was never returned to the pool. -/
def c3db2 : Db := { initialDb with slots := [], requests := [c3req] }

/-- C4 fixture: an earlier slot that stays in the pool. -/
def c4slotA : Slot := ⟨1, "A", 100000, 200000⟩

/-- C4 fixture: the conditional request's slot. -/
def c4slotB : Slot := ⟨2, "B", 300000, 400000⟩

/-- C4 fixture: an approved request still bound to pool slot A (reachable via
approve of a doubly-requested slot followed by a confirmed move that restores
A, see the C1 trace shape). -/
def c4reqApp : Request := { baseReq with
    id := 10, user_id := 7, slot_id := some 1, status := .approved }

/-- C4 fixture: the conditional request on slot B. -/
def c4reqCond : Request := { baseReq with
    id := 3, user_id := 8, slot_id := some 2, status := .conditional }

/-- C4 fixture state. -/
def c4db : Db := { initialDb with
    slots := [c4slotA, c4slotB], requests := [c4reqApp, c4reqCond] }

/-- C6 fixture: a pending request carrying an original-slot snapshot, as
every request created by the submit flow does. -/
def c6req : Request := { baseReq with
    id := 1, user_id := 50, slot_id := some 10, time := "T",
    status := .pending, original_slot_id := some 10,
    original_slot_time := some "T", original_slot_start := some 100000,
    original_slot_end := some 200000 }

/-- C6 fixture state. -/
def c6db : Db := { initialDb with requests := [c6req] }

/-! Helper lemmas. -/

/-- An update keyed by a different id leaves a request in place. -/
theorem mem_updateById_of_ne {l : List Request} {r : Request} {rid : Nat}
    (f : Request → Request) (h : r ∈ l) (hne : r.id ≠ rid) :
    r ∈ updateById l rid f := by
  unfold updateById
  refine List.mem_map.mpr ⟨r, h, ?_⟩
  simp [hne]

/-- The promotion step never touches a request with a different id. -/
theorem promote_preserves_other {db : Db} {r : Request} {cid : Nat}
    {th now : Int} (h : r ∈ db.requests) (hne : r.id ≠ cid) :
    r ∈ (promoteConditionalRequest db cid th now).1.requests := by
  have hupd : ∀ st : Status, r ∈ updateStatus db.requests cid st := by
    intro st
    exact mem_updateById_of_ne _ h hne
  unfold promoteConditionalRequest
  split
  · exact h
  · split
    · exact hupd _
    · split
      · exact hupd _
      · split
        · exact h
        · split
          · exact h
          · exact hupd _

/-- Distinct requests of a state with nodup ids have distinct ids. -/
theorem id_ne_of_nodup {l : List Request} {a b : Request}
    (hn : (l.map (fun q => q.id)).Nodup) (ha : a ∈ l) (hb : b ∈ l)
    (hab : a ≠ b) : a.id ≠ b.id := by
  intro hid
  exact hab (List.inj_on_of_nodup_map hn ha hb hid)

/-- A fold whose body never touches requests with a foreign id preserves
membership of such a request. -/
theorem foldl_preserves_mem {r : Request} (F : Db → Request → Db)
    (hF : ∀ (acc : Db) (c : Request), r ∈ acc.requests → r.id ≠ c.id →
      r ∈ (F acc c).requests) :
    ∀ (cs : List Request) (acc : Db), r ∈ acc.requests →
      (∀ c ∈ cs, r.id ≠ c.id) → r ∈ (cs.foldl F acc).requests := by
  intro cs
  induction cs with
  | nil =>
    intro acc hacc _
    simpa using hacc
  | cons c cs ih =>
    intro acc hacc hne
    simp only [List.foldl_cons]
    exact ih (F acc c) (hF acc c hacc (hne c (by simp)))
      (fun c' hc' => hne c' (by simp [hc']))

/-- A terminal request is distinct from any request selected by a filter that
demands a non-terminal status value. -/
theorem terminal_ne_selected {db : Db} {r c : Request}
    (hn : (db.requests.map (fun q => q.id)).Nodup)
    (h : r ∈ db.requests) (ht : terminalStatus r.status = true)
    (hcmem : c ∈ db.requests) (hcst : terminalStatus c.status = false) :
    r.id ≠ c.id := by
  have hrc : r ≠ c := by
    intro hrc
    rw [hrc, hcst] at ht
    exact Bool.false_ne_true ht
  exact id_ne_of_nodup hn h hcmem hrc

/-- The conditional loop of a tick leaves a terminal request untouched: only
requests fetched with status `conditional` are processed. -/
theorem conditionalTick_preserves_terminal {db : Db} {r : Request}
    {th now : Int} (hn : (db.requests.map (fun q => q.id)).Nodup)
    (h : r ∈ db.requests) (ht : terminalStatus r.status = true) :
    r ∈ (conditionalTick db th now).requests := by
  have hne : ∀ c ∈ getConditionalRequests db.requests, r.id ≠ c.id := by
    intro c hc
    have hcmem : c ∈ db.requests := List.mem_of_mem_filter hc
    have hcst : c.status = Status.conditional := by
      have := List.of_mem_filter hc
      simpa using this
    exact terminal_ne_selected hn h ht hcmem (by rw [hcst]; rfl)
  unfold conditionalTick
  refine foldl_preserves_mem _ ?_ _ _ h hne
  intro acc c hacc hnec
  have h1 : r ∈ (promoteConditionalRequest acc c.id th now).1.requests :=
    promote_preserves_other hacc hnec
  dsimp only
  split
  · exact mem_updateById_of_ne _ h1 hnec
  · exact mem_updateById_of_ne _ h1 hnec
  · exact h1

/-- The reserved loop of a tick leaves a terminal request untouched: only
requests fetched with status `reserved_later` are processed. -/
theorem reservedTick_preserves_terminal {db : Db} {r : Request} {now : Int}
    (hn : (db.requests.map (fun q => q.id)).Nodup)
    (h : r ∈ db.requests) (ht : terminalStatus r.status = true) :
    r ∈ (reservedTick db now).requests := by
  have hne : ∀ c ∈ db.requests.filter
      (fun q => decide (q.status = Status.reserved_later)), r.id ≠ c.id := by
    intro c hc
    have hcmem : c ∈ db.requests := List.mem_of_mem_filter hc
    have hcst : c.status = Status.reserved_later := by
      have := List.of_mem_filter hc
      simpa using this
    exact terminal_ne_selected hn h ht hcmem (by rw [hcst]; rfl)
  unfold reservedTick
  refine foldl_preserves_mem _ ?_ _ _ h hne
  intro acc c hacc hnec
  dsimp only
  split
  · exact hacc
  · split
    · exact mem_updateById_of_ne _ hacc hnec
    · exact hacc

/-- The reminder loop of a tick leaves a terminal request untouched: only
requests fetched with status `approved` are processed, and only their
reminder flags are written. -/
theorem reminderTick_preserves_terminal {db : Db} {r : Request} {now : Int}
    {trigger20 : Int → Int} {ok20 ok1h : Nat → Bool}
    (hn : (db.requests.map (fun q => q.id)).Nodup)
    (h : r ∈ db.requests) (ht : terminalStatus r.status = true) :
    r ∈ (reminderTick db now trigger20 ok20 ok1h).requests := by
  have hne : ∀ c ∈ db.requests.filter
      (fun q => decide (q.status = Status.approved) &&
        (!q.notification_20_sent || !q.notification_1h_sent)), r.id ≠ c.id := by
    intro c hc
    have hcmem : c ∈ db.requests := List.mem_of_mem_filter hc
    have hcst : c.status = Status.approved := by
      have := List.of_mem_filter hc
      simp at this
      exact this.1
    exact terminal_ne_selected hn h ht hcmem (by rw [hcst]; rfl)
  unfold reminderTick
  refine foldl_preserves_mem _ ?_ _ _ h hne
  intro acc c hacc hnec
  have hbranch : ∀ (p : Prop) (inst : Decidable p) (accT accE : Db),
      r ∈ accT.requests → r ∈ accE.requests →
      r ∈ (if p then accT else accE).requests := by
    intro p inst accT accE hT hE
    split
    · exact hT
    · exact hE
  dsimp only
  split
  · exact hacc
  · refine hbranch _ _ _ _ ?_ ?_
    · refine mem_updateById_of_ne _ ?_ hnec
      exact hbranch _ _ _ _ (mem_updateById_of_ne _ hacc hnec) hacc
    · exact hbranch _ _ _ _ (mem_updateById_of_ne _ hacc hnec) hacc

/-- Checked creations and deletions preserve pairwise disjointness of the
slot pool. -/
theorem poolReach_disjoint {l : List Slot} (h : PoolReach l) : slotsDisjoint l := by
  induction h with
  | init => exact List.Pairwise.nil
  | create now text s e freshId hre heq ih =>
    unfold addslotCore at heq
    split at heq
    · exact absurd heq (by simp)
    · split at heq
      · exact absurd heq (by simp)
      · rename_i hpast hover
        have hl : _ = _ := Except.ok.inj heq
        subst hl
        unfold slotsDisjoint
        rw [List.pairwise_append]
        refine ⟨ih, List.pairwise_singleton _ _, ?_⟩
        intro a ha b hb
        have hb1 : b = ⟨freshId, text, s, e⟩ := by simpa using hb
        subst hb1
        intro hcon
        apply hover
        refine List.any_eq_true.mpr ⟨a, ha, ?_⟩
        simp only [intervalsOverlap, Bool.and_eq_true, decide_eq_true_eq]
        exact ⟨hcon.2, hcon.1⟩
  | pattern s e freshId timeStr hre ih =>
    unfold patternInsert
    split
    · exact ih
    · split
      · exact ih
      · rename_i hes hover
        unfold slotsDisjoint
        rw [List.pairwise_append]
        refine ⟨ih, List.pairwise_singleton _ _, ?_⟩
        intro a ha b hb
        have hb1 : b = ⟨freshId, timeStr, s, e⟩ := by simpa using hb
        subst hb1
        intro hcon
        apply hover
        refine List.any_eq_true.mpr ⟨a, ha, ?_⟩
        simp only [Bool.not_eq_true', Bool.or_eq_false_iff,
          decide_eq_false_iff_not, ge_iff_le, not_le]
        exact ⟨hcon.1, hcon.2⟩
  | delete id hre ih =>
    exact List.Pairwise.sublist (List.filter_sublist _) ih

/-! Claim C1. -/

/-- Claim C1, refuted.  The claim states that in every reachable state of the
slot pool (sequences of add-slot creations, pattern expansions, deletions,
claims, and snapshot restorations) any two distinct live slots have
non-overlapping intervals.  Counterexample trace: add slot A, submit a
request on A (the bot.js submit claims A and snapshots it), add slot B with
the same interval (legal, A is gone), approve the request, add a disjoint
slot C, propose a move to C and let the client confirm: `applyClientMove`
restores snapshot A insert-if-absent with no overlap check, so A and B —
distinct ids, identical intervals — are both live. -/
theorem c1_counterexample :
    ∃ db, Reachable db ∧ ∃ s1, ∃ s2, s1 ∈ db.slots ∧ s2 ∈ db.slots ∧
      s1.id ≠ s2.id ∧ s1.start < s2.endT ∧ s2.start < s1.endT := by
  have e1 : addslotHandler initialDb 0 "A" 1000000 2000000 1 =
      Except.ok c1db1 := rfl
  have e2 : submitBot c1db1 50 (some "alice") "Alice" 1 "botulinotherapy"
      100 0 = Except.ok c1db2 := rfl
  have e3 : addslotHandler c1db2 0 "B" 1000000 2000000 2 =
      Except.ok c1db3 := rfl
  have e4 : approveHandler c1db3 100 = Except.ok c1db4 := rfl
  have e5 : addslotHandler c1db4 0 "C" 5000000 6000000 3 =
      Except.ok c1db5 := rfl
  have e6 : moveChoosePart0 c1db5 100 3 = Except.ok c1db6 := rfl
  have e7 : (applyClientMoveP1 c1db6 100).1 = c1db7 := rfl
  have hreach : Reachable c1db7 :=
    Reachable.client_move_yes_p1 100
      (Reachable.move_choose_p0 100 3
        (Reachable.addslot 0 "C" 5000000 6000000 3
          (Reachable.approve 100
            (Reachable.addslot 0 "B" 1000000 2000000 2
              (Reachable.submit_bot 50 (some "alice") "Alice" 1
                "botulinotherapy" 100 0
                (Reachable.addslot 0 "A" 1000000 2000000 1 Reachable.init e1)
                e2)
              e3)
            e4)
          e5)
        e6)
      e7
  exact ⟨c1db7, hreach, c1slotB, c1slotA, by decide, by decide, by decide,
    by decide, by decide⟩

/-- Claim C1, amended: any two distinct live slots have non-overlapping
intervals in every slot pool reachable through checked creations (the
add-slot mode and pattern expansion) and deletions (staff removal and
claims); snapshot restoration, which re-inserts a request's original slot
with no overlap check, is excluded — it can re-introduce an overlap, as the
counterexample shows. -/
theorem c1_amended {l : List Slot} (h : PoolReach l) :
    ∀ s1 ∈ l, ∀ s2 ∈ l, s1.id ≠ s2.id →
      ¬(s1.start < s2.endT ∧ s2.start < s1.endT) := by
  have hp := poolReach_disjoint h
  intro s1 h1 s2 h2 hid
  have hsym : Symmetric (fun a b : Slot =>
      ¬(a.start < b.endT ∧ b.start < a.endT)) := by
    intro a b hab hcon
    exact hab ⟨hcon.2, hcon.1⟩
  have hne : s1 ≠ s2 := by
    intro hss
    exact hid (congrArg Slot.id hss)
  exact List.Pairwise.forall hsym hp h1 h2 hne

/-- Witness for the amended C1 theorem: two slots of a concrete reachable
pool are disjoint. -/
theorem c1_amended_witness :
    ¬((Slot.mk 7 "w" 10000 20000).start < (Slot.mk 8 "x" 30000 40000).endT ∧
      (Slot.mk 8 "x" 30000 40000).start < (Slot.mk 7 "w" 10000 20000).endT) :=
  c1_amended
    (PoolReach.create 0 "x" 30000 40000 8
      (PoolReach.create 0 "w" 10000 20000 7 PoolReach.init rfl) rfl)
    (Slot.mk 7 "w" 10000 20000) (by decide)
    (Slot.mk 8 "x" 30000 40000) (by decide) (by decide)

/-! Claim C2. -/

/-- Claim C2, refuted.  The claim states that in every reachable state at
most one request per (subject, slot) pair is non-terminal.  Counterexample
trace: add disjoint slots A and B; the same user submits a request on A and
a request on B (both pending — the duplicate check is per pair, so this is
allowed); the admin proposes moving the A-request to slot B and the client
confirms: `applyClientMove` re-binds the request to slot B with no duplicate
check, leaving two pending requests of user 50 on slot 2. -/
theorem c2_counterexample :
    ∃ db, Reachable db ∧ ∃ r1, ∃ r2, r1 ∈ db.requests ∧ r2 ∈ db.requests ∧
      r1.id ≠ r2.id ∧ r1.user_id = r2.user_id ∧
      r1.slot_id = some 2 ∧ r2.slot_id = some 2 ∧
      terminalStatus r1.status = false ∧ terminalStatus r2.status = false := by
  have e1 : addslotHandler initialDb 0 "A" 1000000 2000000 1 =
      Except.ok c2db1 := rfl
  have e2 : addslotHandler c2db1 0 "B" 5000000 6000000 2 =
      Except.ok c2db2 := rfl
  have e3 : submitPart0 c2db2 50 (some "alice") "Alice" 1 "botulinotherapy"
      100 0 = Except.ok c2db3 := rfl
  have e4 : submitPart0 c2db3 50 (some "alice") "Alice" 2 "botulinotherapy"
      101 0 = Except.ok c2db4 := rfl
  have e5 : moveChoosePart0 c2db4 100 2 = Except.ok c2db5 := rfl
  have e6 : (applyClientMoveP1 c2db5 100).1 = c2db6 := rfl
  have hreach : Reachable c2db6 :=
    Reachable.client_move_yes_p1 100
      (Reachable.move_choose_p0 100 2
        (Reachable.submit_p0 50 (some "alice") "Alice" 2 "botulinotherapy"
          101 0
          (Reachable.submit_p0 50 (some "alice") "Alice" 1 "botulinotherapy"
            100 0
            (Reachable.addslot 0 "B" 5000000 6000000 2
              (Reachable.addslot 0 "A" 1000000 2000000 1 Reachable.init e1)
              e2)
            e3)
          e4)
        e5)
      e6
  exact ⟨c2db6, hreach, { c2reqA with slot_id := some 2, time := "B" },
    c2reqB, by decide, by decide, by decide, by decide, by decide, by decide,
    by decide, by decide⟩

/-- Claim C2, amended: whenever a non-terminal request for the
(subject, slot) pair exists, submit — in both repository variants — fails
with the duplicate-request conflict and changes nothing; the global
at-most-one invariant, however, does not hold over all reachable states,
because the move flow re-binds a request to its confirmed candidate slot
without a duplicate check (see the counterexample). -/
theorem c2_amended (db : Db) (uid : Nat) (username : Option String)
    (firstName : String) (slotId : Nat) (procKey : String) (freshReqId : Nat)
    (createdAt : Int) (r : Request) (slot : Slot) (proc : Procedure)
    (hbl : isUserBlacklisted db.blacklist username = false)
    (hsl : getSlotById db.slots slotId = some slot)
    (hpr : getProcedureByKey db.procedures procKey = some proc)
    (hmem : r ∈ db.requests) (huid : r.user_id = uid)
    (hslot : r.slot_id = some slotId)
    (hterm : terminalStatus r.status = false) :
    submitBot db uid username firstName slotId procKey freshReqId createdAt =
      Except.error SubmitErr.duplicateRequest ∧
    submitPart0 db uid username firstName slotId procKey freshReqId createdAt =
      Except.error SubmitErr.duplicateRequest := by
  have hne : r.status ≠ Status.rejected ∧ r.status ≠ Status.completed ∧
      r.status ≠ Status.no_show := by
    revert hterm
    cases r.status <;> simp [terminalStatus]
  have hdup : checkDuplicateRequest db.requests uid slotId = true := by
    unfold checkDuplicateRequest
    refine List.any_eq_true.mpr ⟨r, hmem, ?_⟩
    simp [huid, hslot, hne.1, hne.2.1, hne.2.2]
  constructor
  · unfold submitBot
    simp [hbl, hsl, hpr, hdup]
  · unfold submitPart0
    simp [hbl, hsl, hpr, hdup]

/-- Witness for the amended C2 theorem at a concrete state. -/
theorem c2_amended_witness :
    submitBot c2wDb 5 none "N" 1 "mesoniti" 9 0 =
      Except.error SubmitErr.duplicateRequest ∧
    submitPart0 c2wDb 5 none "N" 1 "mesoniti" 9 0 =
      Except.error SubmitErr.duplicateRequest :=
  c2_amended c2wDb 5 none "N" 1 "mesoniti" 9 0 c2wReq
    ⟨1, "A", 10000, 20000⟩ ⟨"mesoniti", "Мезонити"⟩
    rfl rfl rfl (by decide) rfl rfl rfl

/-! Claim C9. -/

/-- Claim C9, refuted.  The claim states that a terminal status is absorbing:
no operation ever changes a rejected / completed / no-show request's status
again.  Counterexample trace: add slot A, submit a request, mark it completed
(terminal); the `no_show_` handler, which does not guard on the current
status, then overwrites the terminal status with `no_show`. -/
theorem c9_counterexample :
    ∃ db, Reachable db ∧ ∃ r, getRequestById db.requests 100 = some r ∧
      terminalStatus r.status = true ∧
      ∃ db', noShowHandler db 100 = Except.ok db' ∧
        ∃ r', getRequestById db'.requests 100 = some r' ∧
          r'.status ≠ r.status := by
  have e1 : addslotHandler initialDb 0 "A" 1000000 2000000 1 =
      Except.ok c9db1 := rfl
  have e2 : submitPart0 c9db1 50 (some "alice") "Alice" 1 "botulinotherapy"
      100 0 = Except.ok c9db2 := rfl
  have e3 : completeHandler c9db2 100 = Except.ok c9db3 := rfl
  have hreach : Reachable c9db3 :=
    Reachable.complete 100
      (Reachable.submit_p0 50 (some "alice") "Alice" 1 "botulinotherapy"
        100 0
        (Reachable.addslot 0 "A" 1000000 2000000 1 Reachable.init e1)
        e2)
      e3
  refine ⟨c9db3, hreach, { c9req0 with status := .completed }, rfl, rfl,
    c9db4, rfl, { c9req0 with status := .no_show }, rfl, by decide⟩

/-- Claim C9, amended: terminal statuses are absorbing under the background
schedulers — the conditional-promotion loop, the reserved-promotion loop and
the reminder loop each select requests by a non-terminal status and leave
every terminal request untouched — and `deleteRecord` can only remove a
request; the interactive admin card handlers (approve, reject, complete,
mark-no-show, move, activate), however, do not guard on terminal status and
can overwrite it (see the counterexample). -/
theorem c9_amended (db : Db) (r : Request) (th now : Int) (rid : Nat)
    (trigger20 : Int → Int) (ok20 ok1h : Nat → Bool)
    (hn : (db.requests.map (fun q => q.id)).Nodup)
    (hmem : r ∈ db.requests) (hterm : terminalStatus r.status = true) :
    r ∈ (conditionalTick db th now).requests ∧
    r ∈ (reservedTick db now).requests ∧
    r ∈ (reminderTick db now trigger20 ok20 ok1h).requests ∧
    (r ∈ deleteRequestById db.requests rid ∨ r.id = rid) := by
  refine ⟨conditionalTick_preserves_terminal hn hmem hterm,
    reservedTick_preserves_terminal hn hmem hterm,
    reminderTick_preserves_terminal hn hmem hterm, ?_⟩
  by_cases h : r.id = rid
  · exact Or.inr h
  · refine Or.inl (List.mem_filter.mpr ⟨hmem, ?_⟩)
    simp [h]

/-- Witness for the amended C9 theorem at a concrete state. -/
theorem c9_amended_witness :
    c9wReq ∈ (conditionalTick c9wDb 12 0).requests ∧
    c9wReq ∈ (reservedTick c9wDb 0).requests ∧
    c9wReq ∈ (reminderTick c9wDb 0 (fun t => t) (fun _ => true)
      (fun _ => true)).requests ∧
    (c9wReq ∈ deleteRequestById c9wDb.requests 2 ∨ c9wReq.id = 2) :=
  c9_amended c9wDb c9wReq 12 0 2 (fun t => t) (fun _ => true) (fun _ => true)
    (by decide) (by decide) rfl

/-! Claim C3. -/

/-- Claim C3: the code violates the decline-move round trip.  For an approved
request and candidate slot 5, `moveTo_` deletes the candidate from the pool;
`clientMoveNo_` restores the request to exactly its pre-move record but never
re-inserts the candidate slot, so the pool after propose-then-decline is
missing slot 5 — the spec itself (design note) flags this variant as a bug to
fix, so the code, not the claim, is wrong. -/
theorem c3_bug :
    moveToBot c3db0 1 5 = Except.ok c3db1 ∧
    clientMoveNoBot c3db1 1 = Except.ok c3db2 ∧
    c3db2.requests = c3db0.requests ∧
    getSlotById c3db0.slots 5 = some ⟨5, "C", 500000, 600000⟩ ∧
    c3db2.slots = [] ∧ c3db0.slots ≠ [] :=
  ⟨rfl, rfl, rfl, rfl, rfl, by decide⟩

/-! Claim C4. -/

/-- Claim C4, refuted.  The claim states the promotion step skips without
state change whenever any slot strictly earlier than the conditional's slot
start is still present in the pool.  In state `c4db`, slot A (start 100000)
is present in the pool and earlier than slot B (start 300000), yet the step
promotes the conditional request to pending — the code only requires earlier
pool slots to be covered by an approved request, and A is covered. -/
theorem c4_counterexample :
    getSlotById c4db.slots 2 = some c4slotB ∧ c4slotB.start = 300000 ∧
    c4db.slots.any (fun s => decide (s.start < 300000)) = true ∧
    (promoteConditionalRequest c4db 3 12 300000).2 =
      PromoteResult.promoted "B" ∧
    getRequestById (promoteConditionalRequest c4db 3 12 300000).1.requests 3 =
      some { c4reqCond with status := Status.pending } ∧
    (promoteConditionalRequest c4db 3 12 300000).1 ≠ c4db :=
  ⟨rfl, rfl, rfl, rfl, rfl, by decide⟩

/-- Claim C4, amended: for a conditional request whose bound slot is still in
the pool, the promotion step promotes to pending exactly when
`now ≥ slotStart - thresholdHours` AND every slot strictly earlier than
`slotStart` that is present in the pool is covered by an approved request
bound to it; if `now < slotStart - thresholdHours` it skips without state
change, and if some earlier pool slot is uncovered it skips without state
change. -/
theorem c4_amended (db : Db) (rid : Nat) (th now : Int) (req : Request)
    (sid : Nat) (slot : Slot)
    (hreq : getRequestById db.requests rid = some req)
    (hsid : req.slot_id = some sid)
    (hslot : getSlotById db.slots sid = some slot) :
    (now < slot.start - th * 3600 * 1000 →
      promoteConditionalRequest db rid th now = (db, PromoteResult.tooEarly)) ∧
    (slot.start - th * 3600 * 1000 ≤ now →
      earlierUncovered db slot.start = true →
      promoteConditionalRequest db rid th now =
        (db, PromoteResult.earlySlotsFree)) ∧
    (slot.start - th * 3600 * 1000 ≤ now →
      earlierUncovered db slot.start = false →
      promoteConditionalRequest db rid th now =
        ({ db with requests := updateStatus db.requests rid Status.pending },
         PromoteResult.promoted slot.time)) := by
  refine ⟨?_, ?_, ?_⟩
  · intro h
    unfold promoteConditionalRequest
    simp [hreq, hsid, hslot, h]
  · intro h1 h2
    unfold promoteConditionalRequest
    simp [hreq, hsid, hslot, not_lt.mpr h1, h2]
  · intro h1 h2
    unfold promoteConditionalRequest
    simp [hreq, hsid, hslot, not_lt.mpr h1, h2]

/-- Witness for the amended C4 theorem: at `c4db` the earlier pool slot A is
covered by an approved request, so the step promotes. -/
theorem c4_amended_witness :
    promoteConditionalRequest c4db 3 12 300000 =
      ({ c4db with requests := updateStatus c4db.requests 3 Status.pending },
       PromoteResult.promoted "B") :=
  (c4_amended c4db 3 12 300000 c4reqCond 2 c4slotB rfl rfl rfl).2.2
    (by decide) rfl

/-! Claim C6. -/

/-- Claim C6: the code cannot restore a snapshot on reject at all.  The
`reject_` handler's restore branch runs `client.query(...)` with no `client`
in scope, so for any request carrying an original-slot snapshot — every
request created by the submit flow — JavaScript throws a ReferenceError, the
outer catch swallows it, and neither the slot re-insert nor the status
update happens.  The insert-if-absent idempotency the claim describes is the
evident intent (the SQL says ON CONFLICT DO NOTHING), the code is a slip. -/
theorem c6_bug :
    rejectHandlerPart0 c6db 1 =
      Except.error RejectErr.referenceErrorClientUndefined ∧
    getRequestById c6db.requests 1 = some c6req ∧
    c6req.original_slot_id = some 10 ∧
    terminalStatus c6req.status = false :=
  ⟨rfl, rfl, rfl, rfl⟩

/-! Claim C7. -/

/-- Claim C7, refuted.  The claim states that a creation attempt with
`start <= now` always fails with a validation error.  With `now = 1000000`
and `start = 1000000` (start exactly at the current instant, so
`start <= now`), the add-slot handler succeeds and inserts the slot: the
past check `isInPast` grants a one-second grace
(`start < now - 1000`). -/
theorem c7_counterexample :
    addslotHandler initialDb 1000000 "s" 1000000 2000000 1 =
      Except.ok { initialDb with slots := [⟨1, "s", 1000000, 2000000⟩] } ∧
    (1000000 : Int) ≤ 1000000 :=
  ⟨rfl, by decide⟩

/-- Claim C7, amended: a creation attempt (with a well-formed interval) fails
with the past-start validation error exactly when the start lies more than
1000 milliseconds before the current instant; a start within the final
second, at `now`, or later passes the past check. -/
theorem c7_amended (db : Db) (now : Int) (text : String) (s e : Int)
    (fid : Nat) :
    addslotHandler db now text s e fid = Except.error AddslotErr.pastStart ↔
      s < e ∧ s < now - 1000 := by
  have hcore : ∀ slots : List Slot,
      (addslotCore slots now text s e fid = Except.error AddslotErr.pastStart ↔
        s < now - 1000) := by
    intro slots
    unfold addslotCore
    split
    · rename_i h2
      have h2' : s < now - 1000 := by simpa [isInPast] using h2
      simp [h2']
    · rename_i h2
      have h2' : ¬ s < now - 1000 := by simpa [isInPast] using h2
      split
      · simp [h2']
      · simp [h2']
  unfold addslotHandler
  split
  · rename_i h1
    have h1' : ¬ s < e := not_lt.mpr h1
    simp [h1']
  · rename_i h1
    have h1' : s < e := not_le.mp h1
    cases hc : addslotCore db.slots now text s e fid with
    | error err =>
      constructor
      · intro he
        have herr : err = AddslotErr.pastStart := by
          simpa using he
        refine ⟨h1', ?_⟩
        refine (hcore db.slots).mp ?_
        rw [hc, herr]
      · intro hcon
        have hps := (hcore db.slots).mpr hcon.2
        rw [hc] at hps
        simpa using hps
    | ok l =>
      have h2' : ¬ s < now - 1000 := by
        intro h2
        have hps := (hcore db.slots).mpr h2
        rw [hc] at hps
        exact absurd hps (by simp)
      simp [h2']

/-! Claim C5. -/

/-- Claim C5: approve on an existing, not-already-approved request always
succeeds — it returns ok (never raises), sets the request's status to
approved, resets both reminder flags to unsent, removes the bound slot from
the pool (succeeding also when the slot has already vanished, since the
ok case needs no assumption about the slot's presence) and deletes nothing
else; approve errors exactly when the request is missing or already
approved. -/
theorem c5_approve (db : Db) (rid : Nat) :
    (getRequestById db.requests rid = none →
      approveHandler db rid = Except.error ApproveErr.notFound) ∧
    (∀ req, getRequestById db.requests rid = some req →
      req.status = Status.approved →
      approveHandler db rid = Except.error ApproveErr.alreadyApproved) ∧
    (∀ req, getRequestById db.requests rid = some req →
      req.status ≠ Status.approved →
      ∃ db', approveHandler db rid = Except.ok db' ∧
        (∀ r', r' ∈ db'.requests → r'.id = rid →
          r'.status = Status.approved ∧ r'.notification_20_sent = false ∧
          r'.notification_1h_sent = false) ∧
        (∀ sid, req.slot_id = some sid → getSlotById db'.slots sid = none) ∧
        (∀ s, s ∈ db'.slots → s ∈ db.slots)) := by
  refine ⟨?_, ?_, ?_⟩
  · intro hnone
    unfold approveHandler
    simp [hnone]
  · intro req hsome happ
    unfold approveHandler
    simp [hsome, happ]
  · intro req hsome happ
    refine ⟨{ db with
        slots := match req.slot_id with
          | some sid => deleteSlotById db.slots sid
          | none => db.slots,
        requests := updateById db.requests rid
          (fun r => { r with
              status := Status.approved, notification_20_sent := false,
              notification_1h_sent := false }) }, ?_, ?_, ?_, ?_⟩
    · unfold approveHandler
      rw [hsome]
      simp [happ]
    · intro r' hr' hid
      rcases List.mem_map.mp hr' with ⟨r0, hr0, heq⟩
      by_cases h0 : r0.id = rid
      · rw [if_pos h0] at heq
        rw [← heq]
        exact ⟨rfl, rfl, rfl⟩
      · rw [if_neg h0] at heq
        rw [← heq] at hid
        exact absurd hid h0
    · intro sid hsid
      rw [hsid]
      unfold getSlotById deleteSlotById
      rw [List.find?_eq_none]
      intro x hx
      have hx2 := List.of_mem_filter hx
      simp at hx2 ⊢
      exact hx2
    · intro s hs
      cases hsl : req.slot_id with
      | none =>
        rw [hsl] at hs
        exact hs
      | some sid =>
        rw [hsl] at hs
        exact List.mem_of_mem_filter hs

/-- Witness for the C5 theorem at a concrete state: approving the pending
request of `c2wDb` succeeds with the stated effects. -/
theorem c5_approve_witness :
    ∃ db', approveHandler c2wDb 1 = Except.ok db' ∧
      (∀ r', r' ∈ db'.requests → r'.id = 1 →
        r'.status = Status.approved ∧ r'.notification_20_sent = false ∧
        r'.notification_1h_sent = false) ∧
      (∀ sid, c2wReq.slot_id = some sid → getSlotById db'.slots sid = none) ∧
      (∀ s, s ∈ db'.slots → s ∈ c2wDb.slots) :=
  (c5_approve c2wDb 1).2.2 c2wReq rfl (by decide)

/-! Claim C8. -/

/-- Evaluation of the one-hour reminder step on an unset flag. -/
theorem tick1h_false_eval (T now : Int) (ok : Bool) :
    tick1h T now ok false =
      if T - 3600000 ≤ now then (ok, ok) else (false, false) := by
  unfold tick1h
  by_cases h : T - 3600000 ≤ now
  · rw [if_pos ⟨rfl, h⟩, if_pos h]
  · rw [if_neg (fun hc => h hc.2), if_neg h]

/-- Evaluation of the one-hour reminder step on a set flag: nothing is sent
and the flag stays set. -/
theorem tick1h_true_eval (T now : Int) (ok : Bool) :
    tick1h T now ok true = (true, false) := by
  unfold tick1h
  rw [if_neg]
  intro hc
  exact absurd hc.1 (by simp)

/-- Once the flag is set no further one-hour reminder is ever delivered. -/
theorem run1h_flag_set (T : Int) :
    ∀ ticks : List (Int × Bool), run1h T true ticks = 0 := by
  intro ticks
  induction ticks with
  | nil => rfl
  | cons p rest ih =>
    cases p with
    | mk now ok =>
      simp only [run1h, tick1h_true_eval]
      simpa using ih

/-- Claim C8, refuted.  The claim states the one-hour reminder is sent only
at a tick whose `now` lies in the half-open window before the slot start,
`[T - 60min, T)`.  At `T = 0` and `now = 0` — the slot-start instant itself,
outside that window — the step still sends the reminder (and persists the
flag): the code has no upper bound, it fires whenever
`now >= T - 60min`. -/
theorem c8_counterexample :
    (tick1h 0 0 true false).2 = true ∧ (tick1h 0 0 true false).1 = true ∧
    ¬((0 : Int) < 0) :=
  ⟨rfl, rfl, by decide⟩

/-- Claim C8, amended: for an approved request bound to a slot starting at
`T`, across any run of scheduler ticks the one-hour reminder is delivered at
most once, and exactly once as soon as some tick at or after `T - 60min` has
a successful send; a delivery can only happen at a tick with
`now ≥ T - 60min` (no upper bound) whose send succeeds and while the flag is
unset; the flag is persisted only after a successful send, so a failed send
leaves it unset and the reminder is retried at the next eligible tick. -/
theorem c8_amended (T : Int) (ticks : List (Int × Bool)) :
    run1h T true ticks = 0 ∧
    run1h T false ticks ≤ 1 ∧
    (∀ now ok flag, (tick1h T now ok flag).2 = true →
      flag = false ∧ T - 3600000 ≤ now ∧ ok = true) ∧
    (∀ now, tick1h T now false false = (false, false)) ∧
    ((∃ p ∈ ticks, T - 3600000 ≤ p.1 ∧ p.2 = true) →
      run1h T false ticks = 1) := by
  refine ⟨run1h_flag_set T ticks, ?_, ?_, ?_, ?_⟩
  · induction ticks with
    | nil => simp [run1h]
    | cons p rest ih =>
      cases p with
      | mk now ok =>
        simp only [run1h, tick1h_false_eval]
        by_cases helig : T - 3600000 ≤ now
        · rw [if_pos helig]
          cases ok with
          | true => simp [run1h_flag_set]
          | false => simpa using ih
        · rw [if_neg helig]
          simpa using ih
  · intro now ok flag
    unfold tick1h
    split
    · rename_i hcond
      intro hsent
      exact ⟨hcond.1, hcond.2, by simpa using hsent⟩
    · intro hsent
      exact absurd hsent (by simp)
  · intro now
    rw [tick1h_false_eval]
    split
    · rfl
    · rfl
  · induction ticks with
    | nil =>
      intro hex
      simp at hex
    | cons p rest ih =>
      intro hex
      cases p with
      | mk now ok =>
        simp only [run1h, tick1h_false_eval]
        by_cases helig : T - 3600000 ≤ now
        · rw [if_pos helig]
          cases ok with
          | true => simp [run1h_flag_set]
          | false =>
            have hrest : ∃ p ∈ rest, T - 3600000 ≤ p.1 ∧ p.2 = true := by
              rcases hex with ⟨q, hq, hq1, hq2⟩
              rcases List.mem_cons.mp hq with hq0 | hqr
              · rw [hq0] at hq2
                exact absurd hq2 (by simp)
              · exact ⟨q, hqr, hq1, hq2⟩
            simpa using ih hrest
        · rw [if_neg helig]
          have hrest : ∃ p ∈ rest, T - 3600000 ≤ p.1 ∧ p.2 = true := by
            rcases hex with ⟨q, hq, hq1, hq2⟩
            rcases List.mem_cons.mp hq with hq0 | hqr
            · rw [hq0] at hq1
              exact absurd hq1 helig
            · exact ⟨q, hqr, hq1, hq2⟩
          simpa using ih hrest

/-- Witness for the amended C8 theorem: one eligible successful tick, one
delivery. -/
theorem c8_amended_witness :
    run1h 7200000 false [(3600000, true)] = 1 :=
  (c8_amended 7200000 [(3600000, true)]).2.2.2.2
    ⟨(3600000, true), by simp, by decide, rfl⟩

/-! Claim C10. -/

/-- Claim C10: the blacklist gate never blocks a subject without a username —
a missing (null) or empty handle is reported not blacklisted — and when a
handle is present, membership is decided on the handle normalised by
stripping one leading at-sign and lowercasing, symmetrically on insertion
and lookup: a lookup hits exactly when the normalised handle is stored, and
inserting any handle with the same normal form makes the lookup hit. -/
theorem c10_blacklist (bl : List String) (u v : String) :
    isUserBlacklisted bl none = false ∧
    isUserBlacklisted bl (some "") = false ∧
    (u ≠ "" → (isUserBlacklisted bl (some u) = true ↔ normalizeHandle u ∈ bl)) ∧
    (u ≠ "" → normalizeHandle u = normalizeHandle v →
      isUserBlacklisted (addToBlacklist bl v) (some u) = true) := by
  refine ⟨rfl, rfl, ?_, ?_⟩
  · intro hu
    unfold isUserBlacklisted
    dsimp only
    rw [if_neg hu]
    simp [List.any_eq_true]
  · intro hu hnorm
    unfold isUserBlacklisted addToBlacklist
    dsimp only
    rw [if_neg hu, hnorm]
    split
    · rename_i hc
      exact hc
    · refine List.any_eq_true.mpr ⟨normalizeHandle v, ?_, by simp⟩
      simp

/-- Witness for the C10 theorem: inserting Ivan and looking up at-Ivan with
different capitalisation hits. -/
theorem c10_blacklist_witness :
    isUserBlacklisted (addToBlacklist [] "Ivan") (some "@IVAN") = true :=
  (c10_blacklist [] "@IVAN" "Ivan").2.2.2 (by decide) (by decide)

end MedBot
